import Mathlib

/-!
Verification of the RWA implementation server's KYC/identity workflow.

The development shallowly embeds the relevant JavaScript source
(src/context/handleKyc.js, src/context/handleKycV6.js, src/context/invest.js,
and the Express route handlers) as pure Lean functions:

* byte strings are `List Nat` (each entry a byte value);
* JS BigInt arithmetic is `Int` arithmetic (BigInt division truncates toward
  zero; every division below has a positive numerator and positive
  denominator, where all integer division conventions agree);
* keccak256 is an opaque-to-the-development parameter `keccak : List Nat → Nat`
  (a hash value is modelled as the `Nat` it denotes; `ethers.getBytes` on a
  bytes32 value is `natToBeBytes 32`);
* ECDSA signing/recovery (an external library, secp256k1) is a parameter
  structure `ECDSA`; the round-trip law `ECDSA.Sound` states the defining
  property of a recoverable signature scheme that the real library satisfies;
* each async function that submits transactions is embedded as a function
  from its remote inputs (fee snapshots, receipt logs, view-call replies) to
  the list of transactions it submits plus its result (`Run`).
-/

/-- Big-endian byte representation of `v`, `width` bytes wide
(the value is reduced modulo `2 ^ (8 * width)` as on chain). -/
def natToBeBytes (width v : Nat) : List Nat :=
  (List.range width).map (fun i => v / 2 ^ (8 * (width - 1 - i)) % 256)

/-- One 32-byte ABI word. -/
def abiWord (v : Nat) : List Nat := natToBeBytes 32 v

/-- Right-pad a byte string with zeros to a multiple of 32 bytes. -/
def padRight32 (bs : List Nat) : List Nat :=
  bs ++ List.replicate ((32 - bs.length % 32) % 32) 0

/-- The standard ABI encoding of the tuple `(address, uint256, bytes)`, as
produced by `ethers.AbiCoder.defaultAbiCoder().encode(["address","uint256","bytes"], ...)`:
three head words (padded address, the uint256, the offset 0x60 of the dynamic
tail), then the tail (length word followed by the right-padded payload). -/
def abiEncode_addr_uint_bytes (addr topic : Nat) (payload : List Nat) : List Nat :=
  abiWord addr ++ abiWord topic ++ abiWord 96 ++ abiWord payload.length ++ padRight32 payload

/-- The packed encoding of `(address, uint256, bytes)`, as hashed by
`ethers.solidityPackedKeccak256(["address","uint256","bytes"], ...)`:
20-byte address, 32-byte uint256, then the raw payload with no padding. -/
def packedEncode_addr_uint_bytes (addr topic : Nat) (payload : List Nat) : List Nat :=
  natToBeBytes 20 addr ++ abiWord topic ++ payload

/-- The EIP-191 personal-message header for a 32-byte message,
`"\x19Ethereum Signed Message:\n32"`, prepended by `ethers.hashMessage`. -/
def personalMessageTag : List Nat :=
  25 :: ("Ethereum Signed Message:\n32".toList.map Char.toNat)

/-- A recoverable signature scheme (the external secp256k1 ECDSA library):
`sign` maps a private key and a digest to a serialized signature, `recover`
maps a signature and a digest to an address, `addrOf` maps a private key to
its address. -/
structure ECDSA where
  sign : Nat → Nat → Nat
  recover : Nat → Nat → Nat
  addrOf : Nat → Nat

/-- The defining law of a recoverable signature scheme: recovering from a
signature over a digest yields the signer's address. -/
def ECDSA.Sound (E : ECDSA) : Prop :=
  ∀ k h, E.recover (E.sign k h) h = E.addrOf k

/-- Constant `CLAIM_ISSUER_ADDRESS` hardcoded in src/context/handleKyc.js. -/
def CLAIM_ISSUER_ADDRESS : Nat := 0xd75849340fa68E19610791c398880D8a4a089096

/-- The operator address hardcoded as the sole management key in
`createIdentity` (both handleKyc.js and handleKycV6.js). -/
def ADMIN_MGMT_ADDR : Nat := 0x0af700A3026adFddC10f7Aa8Ba2419e8503592f7

/-- Model of `ethers.isAddress`: the value fits in 20 bytes (syntactic validity of the
hex string is modelled by the numeric bound). -/
def isAddress (a : Nat) : Bool := decide (a < 2 ^ 160)

/-- The UTF-8 bytes of the fixed claim payload string "KYC". -/
def kycBytes : List Nat := "KYC".toList.map Char.toNat

/-- The claim record returned by `issueKycClaimSignature` (handleKyc.js):
signature components (serialized), the declared issuer, the data hash and the
topic. -/
structure IssuedClaim where
  signature : Nat
  issuerAddress : Nat
  dataHash : Nat
  topic : Nat
deriving DecidableEq, Repr

/-- The claim object consumed by `submitClaim` (shape returned by
`generateClaimSignature` in both files). -/
structure ClaimDetails where
  topic : Nat
  scheme : Nat
  issuer : Nat
  signature : Nat
  data : List Nat
  uri : String
deriving DecidableEq, Repr

/-- Embedding of `issueKycClaimSignature(userAddress, onchainIDAddress, claimData, topic)`
from src/context/handleKyc.js lines 180-236: validate both addresses, ABI
encode `(onchainID, topic, claimDataBytes)`, keccak it to `dataHash`, apply
the EIP-191 personal transform (`ethers.hashMessage` over the 32 bytes of
`dataHash`), sign the result with the admin key, and return the claim with
the hardcoded `CLAIM_ISSUER_ADDRESS` as the declared issuer. -/
def issueKycClaimSignature (keccak : List Nat → Nat) (E : ECDSA) (adminKey : Nat)
    (userAddress onchainID : Nat) (claimData : List Nat) (topic : Nat) :
    Except String IssuedClaim :=
  if !isAddress userAddress then .error "Invalid user address provided."
  else if !isAddress onchainID then .error "Invalid onchain ID address provided."
  else
    let encoded := abiEncode_addr_uint_bytes onchainID topic claimData
    let dataHash := keccak encoded
    let ethHash := keccak (personalMessageTag ++ natToBeBytes 32 dataHash)
    let signature := E.sign adminKey ethHash
    .ok ⟨signature, CLAIM_ISSUER_ADDRESS, dataHash, topic⟩

/-- Embedding of `generateClaimSignature(userAddress, identityAddress, topic)` from
src/context/handleKyc.js lines 285-320: the compatibility wrapper that calls
`issueKycClaimSignature` with the fixed payload "KYC" and repackages the
result (signature serialization is the identity in this model). -/
def generateClaimSignature (keccak : List Nat → Nat) (E : ECDSA)
    (adminKey userAddress identityAddress topic : Nat) : Except String ClaimDetails :=
  match issueKycClaimSignature keccak E adminKey userAddress identityAddress kycBytes topic with
  | .error e => .error e
  | .ok r => .ok ⟨r.topic, 1, r.issuerAddress, r.signature, kycBytes, ""⟩

/-- Embedding of `generateClaimSignature(identityAddress, topic, claimDataString)` from
src/context/handleKycV6.js lines 182-218: ABI encode, keccak, sign the
EIP-191 personal transform via `wallet.signMessage`, and return the claim with
the signing wallet's own address as the declared issuer. -/
def generateClaimSignatureV6 (keccak : List Nat → Nat) (E : ECDSA)
    (adminKey identityAddress topic : Nat) (claimData : List Nat) : ClaimDetails :=
  let dataHash := keccak (abiEncode_addr_uint_bytes identityAddress topic claimData)
  let signature := E.sign adminKey (keccak (personalMessageTag ++ natToBeBytes 32 dataHash))
  ⟨topic, 1, E.addrOf adminKey, signature, claimData, ""⟩

/-- Spec-side definition (spec section 4.3): `dataHash` is the chain's standard
hash of the standard ABI encoding of the ordered tuple
(subjectIdentityAddress, topic, payloadBytes). -/
def specDataHash (keccak : List Nat → Nat) (subject topic : Nat) (payload : List Nat) : Nat :=
  keccak (abiEncode_addr_uint_bytes subject topic payload)

/-- Spec-side definition (spec section 4.3): the "personal sign" transform of
`dataHash` per the EIP-191 convention. -/
def specPersonalDigest (keccak : List Nat → Nat) (subject topic : Nat) (payload : List Nat) : Nat :=
  keccak (personalMessageTag ++ natToBeBytes 32 (specDataHash keccak subject topic payload))

/-- Modelled from the spec: operation `verifyLocally(claim, subjectIdentityAddress)`
of spec section 4.4. The repository has no standalone local verifier (the only
pre-flight check lives inside handleKycV6.js `submitClaim` and recomputes a
different, packed hash), so this follows the spec's words: recompute `dataHash`
exactly as in section 4.3, recover the signing address from `claim.signature`
and `dataHash` with the chain's standard recovery for personal-signed messages
(the transform matching the issuance of section 4.3), and compare the
recovered address with the claim's declared issuer. -/
def verifyLocally (keccak : List Nat → Nat) (E : ECDSA) (claim : ClaimDetails)
    (subject : Nat) : Bool :=
  let dataHash := keccak (abiEncode_addr_uint_bytes subject claim.topic claim.data)
  let recovered := E.recover claim.signature (keccak (personalMessageTag ++ natToBeBytes 32 dataHash))
  recovered == claim.issuer

/-- The provider fee snapshot (`provider.getFeeData()`): each field is a
BigInt or null in ethers v6. -/
structure FeeData where
  maxFeePerGas : Option Int
  maxPriorityFeePerGas : Option Int
deriving DecidableEq, Repr

/-- The fee quote returned by `getGasOverrides`. -/
structure GasOverrides where
  maxFeePerGas : Int
  maxPriorityFeePerGas : Int
deriving DecidableEq, Repr

/-- JavaScript truthiness of a BigInt-or-null field: `null`, `undefined` and
`0n` are falsy, every other BigInt is truthy. -/
def jsTruthy : Option Int → Bool
  | none => false
  | some v => v != 0

/-- Value of `ethers.parseUnits("32", "gwei")`: the 32 Gwei priority-fee floor. -/
def amoyMinPriorityFee : Int := 32000000000

/-- The error thrown when the fee snapshot is incomplete. -/
def feeDataErr : String := "Failed to fetch complete fee data from the provider."

/-- Embedding of `getGasOverrides(provider)` from src/context/handleKyc.js lines 29-63 (the
same arithmetic appears in handleKycV6.js lines 27-66): throw unless both fee
fields are truthy, floor the priority fee at 32 Gwei, buffer it by 110/100 in
BigInt arithmetic, and recompute the max fee as the implied base fee plus the
buffered tip. -/
def getGasOverrides (feeData : FeeData) : Except String GasOverrides :=
  if !jsTruthy feeData.maxFeePerGas || !jsTruthy feeData.maxPriorityFeePerGas then
    .error feeDataErr
  else
    let maxFee := feeData.maxFeePerGas.getD 0
    let reported := feeData.maxPriorityFeePerGas.getD 0
    let priorityFee := if reported < amoyMinPriorityFee then amoyMinPriorityFee else reported
    let bufferedPriorityFee := Int.tdiv (priorityFee * 110) 100
    let estimatedBaseFee := maxFee - reported
    .ok ⟨estimatedBaseFee + bufferedPriorityFee, bufferedPriorityFee⟩

/-- A transaction submitted to the chain by one of the embedded operations. -/
inductive Tx where
  | createIdentityTx (user : Nat) (salt : String) (managementKey : Nat) (gas : GasOverrides)
  | addKeyTx (identity key purpose keyType : Nat) (gas : GasOverrides)
  | addClaimTx (identity topic scheme issuer signature : Nat) (data : List Nat) (uri : String)
      (gas : GasOverrides) (gasLimit : Option Nat)
  | registerIdentityTx (user identity country : Nat) (gas : GasOverrides) (txHash : String)
  | mintTx (token toAddr amount : Nat)
deriving DecidableEq, Repr

/-- Whether an action is one of the key-configuration transactions
(`identityProxy.addKey`). -/
def Tx.isAddKey : Tx → Bool
  | .addKeyTx _ _ _ _ _ => true
  | _ => false

deriving instance DecidableEq for Except

/-- The outcome of running one embedded async operation: the transactions it
submitted, in order, and its returned value or thrown error. -/
structure Run (α : Type) where
  actions : List Tx
  result : Except String α
deriving DecidableEq, Repr

/-- Embedding of `submitClaim(identityAddress, userWallet, claimDetails)` from
src/context/handleKyc.js lines 346-390. `viewResp` is the reply of the
`checkIsClaimValid` on-chain view call (an error if the RPC call throws): the
code awaits it but never inspects the returned boolean. It then fetches a fee
quote, sets `gasLimit = 500000` and submits `addClaim` unconditionally. -/
def submitClaim_kyc (viewResp : Except String Bool) (fd : FeeData) (identityAddress : Nat)
    (cd : ClaimDetails) : Run Unit :=
  match viewResp with
  | .error e => ⟨[], .error e⟩
  | .ok _claimValid =>
    match getGasOverrides fd with
    | .error e => ⟨[], .error e⟩
    | .ok g =>
      ⟨[Tx.addClaimTx identityAddress cd.topic cd.scheme cd.issuer cd.signature
          cd.data cd.uri g (some 500000)], .ok ()⟩

/-- Embedding of `submitClaim(identityAddress, userWallet, claimDetails)` from
src/context/handleKycV6.js lines 226-288. The pre-flight check recomputes the
hash with `ethers.solidityPackedKeccak256` (packed encoding, not the ABI
encoding used at issuance), asks the contract's `getRecoveredAddress` view
(plain recovery over the given digest, per the standalone validator script)
for the signer, and on a mismatch the thrown error is caught and the function
returns normally without submitting anything; otherwise it fetches a fee quote
and submits `addClaim`. -/
def submitClaimV6 (keccak : List Nat → Nat) (E : ECDSA) (fd : FeeData) (identityAddress : Nat)
    (cd : ClaimDetails) : Run Unit :=
  let dataHash := keccak (packedEncode_addr_uint_bytes identityAddress cd.topic cd.data)
  let recovered := E.recover cd.signature dataHash
  if recovered != cd.issuer then ⟨[], .ok ()⟩
  else
    match getGasOverrides fd with
    | .error e => ⟨[], .error e⟩
    | .ok g =>
      ⟨[Tx.addClaimTx identityAddress cd.topic cd.scheme cd.issuer cd.signature
          cd.data cd.uri g none], .ok ()⟩

/-- Whether a receipt log entry decodes to the `WalletLinked` event: a log is
modelled by its parse outcome against the factory interface, `none` when
`parseLog` throws (the entry does not match the interface), `some (name, identity)`
when it parses to event `name` with identity argument `identity`. -/
def isWalletLinked : Option (String × Nat) → Bool
  | some (n, _) => n == "WalletLinked"
  | none => false

/-- The receipt-log scan of `createIdentity` (handleKyc.js lines 100-113 and,
via `Array.find`, handleKycV6.js lines 101-117): walk the logs in order,
skip entries that do not parse or are a different event, and take the identity
argument of the first entry that parses to `WalletLinked`. -/
def findWalletLinked : List (Option (String × Nat)) → Option Nat
  | [] => none
  | l :: rest =>
    match l with
    | some (n, ident) => if n == "WalletLinked" then some ident else findWalletLinked rest
    | none => findWalletLinked rest

/-- The event-not-found error thrown by `createIdentity`. -/
def eventNotFoundMsg : String := "Could not find the WalletLinked event in the transaction receipt."

/-- Embedding of `configureAndTransferIdentity(identityAddress, userAddress)` from
src/context/handleKyc.js lines 135-177 (same sequence in handleKycV6.js):
two sequential `addKey` transactions (MANAGEMENT then CLAIM_SIGNER, both
ECDSA-typed) for the user's key hash, each with its own fresh fee quote. -/
def configureAndTransferIdentity (keccak : List Nat → Nat) (fd1 fd2 : FeeData)
    (identityAddress userAddress : Nat) : Run Unit :=
  let userKey := keccak (abiWord userAddress)
  match getGasOverrides fd1 with
  | .error e => ⟨[], .error e⟩
  | .ok g1 =>
    let a1 := Tx.addKeyTx identityAddress userKey 1 1 g1
    match getGasOverrides fd2 with
    | .error e => ⟨[a1], .error e⟩
    | .ok g2 => ⟨[a1, Tx.addKeyTx identityAddress userKey 3 1 g2], .ok ()⟩

/-- Embedding of `createIdentity(userAddress, salt)` from src/context/handleKyc.js lines
72-127: fetch a fee quote, submit `createIdentityWithManagementKeys` with the
hardcoded operator management key, wait for the receipt (`receiptLogs` is its
log list, each modelled by its parse outcome), scan for the `WalletLinked`
event, throw `eventNotFoundMsg` when no entry matches, and otherwise run the
key configuration on the extracted identity address and return it. -/
def createIdentity (keccak : List Nat → Nat) (fdCreate fd1 fd2 : FeeData)
    (receiptLogs : List (Option (String × Nat))) (userAddress : Nat) (salt : String) :
    Run Nat :=
  match getGasOverrides fdCreate with
  | .error e => ⟨[], .error e⟩
  | .ok g =>
    let managementKey := keccak (abiWord ADMIN_MGMT_ADDR)
    let aCreate := Tx.createIdentityTx userAddress salt managementKey g
    match findWalletLinked receiptLogs with
    | none => ⟨[aCreate], .error eventNotFoundMsg⟩
    | some identityAddress =>
      let cfg := configureAndTransferIdentity keccak fd1 fd2 identityAddress userAddress
      match cfg.result with
      | .error e => ⟨aCreate :: cfg.actions, .error e⟩
      | .ok _ => ⟨aCreate :: cfg.actions, .ok identityAddress⟩

/-- A JavaScript value as serialized into a JSON response field. -/
inductive JsVal where
  | jsBool (b : Bool)
  | jsStr (s : String)
deriving DecidableEq, Repr

/-- Embedding of `addToIdentityRegistry(userAddress, identityAddress, countryCode)` from
src/context/handleKyc.js lines 562-581: fetch a fresh fee quote, submit
`registerIdentity`, wait for confirmation (`txHash` is the confirmed
transaction's hash), and return the JS literal `true`. -/
def addToIdentityRegistry (fd : FeeData) (txHash : String)
    (userAddress identityAddress countryCode : Nat) : Run JsVal :=
  match getGasOverrides fd with
  | .error e => ⟨[], .error e⟩
  | .ok g =>
    ⟨[Tx.registerIdentityTx userAddress identityAddress countryCode g txHash],
      .ok (JsVal.jsBool true)⟩

/-- An HTTP response of the Express layer (status plus the fields this
development cares about). -/
structure HttpResp where
  status : Nat
  transactionHash : Option JsVal
  errorMsg : Option String
deriving DecidableEq, Repr

/-- The `POST /register` handler from src/unnamed/part_000 lines 69-81, on a
request whose three body fields are present: call `addToIdentityRegistry` and
report its return value as `transactionHash` with status 200, or status 500 on
a thrown error. -/
def registerEndpointHandler (fd : FeeData) (txHash : String)
    (userAddress identityAddress countryCode : Nat) : HttpResp × List Tx :=
  let r := addToIdentityRegistry fd txHash userAddress identityAddress countryCode
  match r.result with
  | .ok v => (⟨200, some v, none⟩, r.actions)
  | .error _ => (⟨500, none, some "Failed to register identity."⟩, r.actions)

/-- The token contract address hardcoded inside `mintTokens`
(src/context/invest.js line 15). -/
def HARDCODED_TOKEN_ADDRESS : Nat := 0x3eaC25f463ed170fC79EfD629A0BD93f9336A016

/-- Embedding of `mintTokens(to, amount, tokenAddress)` from src/context/invest.js lines
12-31: the `console.log` argument `tokenAddress = "0x3eaC..."` reassigns the
parameter before it is used, so the mint transaction always targets the
hardcoded token contract; on success the function returns `tx.hash`
(`txHash`, the hash the chain assigned to the submitted transaction). -/
def mintTokens (txHash : String) (toAddr amount tokenAddress : Nat) : Run String :=
  let tokenAddress := HARDCODED_TOKEN_ADDRESS
  ⟨[Tx.mintTx tokenAddress toAddr amount], .ok txHash⟩

/-- A concrete recoverable signature scheme used to instantiate the abstract
ECDSA parameter in witnesses and counterexamples: a signature packs the key
above the low 64 bits of the digest. -/
def toyE : ECDSA where
  sign := fun k h => k * 2 ^ 64 + h % 2 ^ 64
  recover := fun s h => if s % 2 ^ 64 = h % 2 ^ 64 then s / 2 ^ 64 else 0
  addrOf := fun k => k

/-- A concrete stand-in for the hash parameter in witnesses and
counterexamples. -/
def toyKeccak : List Nat → Nat := List.length

/-- A concrete complete fee snapshot: max fee 100 Gwei, priority fee 40 Gwei.
`getGasOverrides` maps it to `⟨104 Gwei, 44 Gwei⟩`. -/
def fdOk : FeeData := ⟨some 100000000000, some 40000000000⟩

/-- The concrete claim produced by `generateClaimSignature toyKeccak toyE 1 5 7 42`:
the toy signature of key 1 over the 60-byte toy digest, declared issuer the
hardcoded `CLAIM_ISSUER_ADDRESS`. -/
def badClaim : ClaimDetails := ⟨42, 1, CLAIM_ISSUER_ADDRESS, 2 ^ 64 + 60, kycBytes, ""⟩

/-- The identity contract address used by the repository's own test call of
`submitClaim` (handleKycV6.js line 315). -/
def DE9_IDENTITY : Nat := 0xDe9Fda56D152aBe11Aa64aeb5eAbC1eA8049A2eb

theorem toyE_sound : toyE.Sound := by
  intro k h
  show (if (k * 2 ^ 64 + h % 2 ^ 64) % 2 ^ 64 = h % 2 ^ 64 then
      (k * 2 ^ 64 + h % 2 ^ 64) / 2 ^ 64 else 0) = k
  have c : (2 : Nat) ^ 64 = 18446744073709551616 := by norm_num
  simp only [c]
  have h1 : (k * 18446744073709551616 + h % 18446744073709551616) % 18446744073709551616 =
      h % 18446744073709551616 := by omega
  rw [if_pos h1]
  omega

theorem getGasOverrides_ok_eq (a p : Int) (ha : a ≠ 0) (hp : p ≠ 0) :
    getGasOverrides ⟨some a, some p⟩ =
      .ok ⟨(a - p) +
            Int.tdiv ((if p < amoyMinPriorityFee then amoyMinPriorityFee else p) * 110) 100,
          Int.tdiv ((if p < amoyMinPriorityFee then amoyMinPriorityFee else p) * 110) 100⟩ := by
  unfold getGasOverrides
  simp [jsTruthy, bne_iff_ne, ha, hp]

/-- C5: for every fee snapshot providing both a (truthy) max fee and a
(truthy) priority fee, the estimator computes in exact integer arithmetic with
truncating division: quoted priority fee = (max(reported, 32 Gwei floor) * 110)
tdiv 100, quoted max fee = (maxFeePerGas - maxPriorityFeePerGas) + quoted
priority fee; and whenever the reported priority fee is below the floor the
quoted priority fee is exactly 35200000000 wei. -/
theorem gas_quote_exact (a p : Int) (ha : a ≠ 0) (hp : p ≠ 0) :
    getGasOverrides ⟨some a, some p⟩ =
      .ok ⟨(a - p) + Int.tdiv (max p amoyMinPriorityFee * 110) 100,
          Int.tdiv (max p amoyMinPriorityFee * 110) 100⟩
    ∧ (p < amoyMinPriorityFee →
        getGasOverrides ⟨some a, some p⟩ = .ok ⟨(a - p) + 35200000000, 35200000000⟩) := by
  have h := getGasOverrides_ok_eq a p ha hp
  constructor
  · rw [h]
    rcases lt_or_le p amoyMinPriorityFee with hlt | hle
    · rw [if_pos hlt, max_eq_right hlt.le]
    · rw [if_neg (not_lt.mpr hle), max_eq_left hle]
  · intro hlt
    rw [h, if_pos hlt]
    have e : Int.tdiv (amoyMinPriorityFee * 110) 100 = 35200000000 := by decide
    rw [e]

theorem gas_quote_exact_witness :
    getGasOverrides ⟨some 100000000000, some 1000000000⟩ =
      .ok ⟨134200000000, 35200000000⟩ := by
  have h := (gas_quote_exact 100000000000 1000000000 (by decide) (by decide)).2 (by decide)
  exact h.trans (by decide)

/-- C6 counterexample: a snapshot in which both fee fields are present but the
max fee is the BigInt `0n` is rejected by the estimator (JS truthiness treats
`0n` as missing), so "fails only if a field is missing" is false. -/
theorem gas_zero_maxfee_cex :
    getGasOverrides ⟨some 0, some 32000000000⟩ = .error feeDataErr
    ∧ (FeeData.mk (some 0) (some 32000000000)).maxFeePerGas.isSome = true
    ∧ (FeeData.mk (some 0) (some 32000000000)).maxPriorityFeePerGas.isSome = true := by
  decide

/-- C6 (amended): the estimator fails if and only if the max fee or the
priority fee is missing or zero (JS-falsy); with both fields present and
nonzero it never fails. -/
theorem gas_fee_error_iff (fd : FeeData) :
    getGasOverrides fd = .error feeDataErr ↔
      (jsTruthy fd.maxFeePerGas = false ∨ jsTruthy fd.maxPriorityFeePerGas = false) := by
  unfold getGasOverrides
  by_cases h1 : jsTruthy fd.maxFeePerGas <;> by_cases h2 : jsTruthy fd.maxPriorityFeePerGas <;>
    simp [h1, h2]

/-- C7 counterexample: the snapshot with maxFeePerGas = maxPriorityFeePerGas =
32 Gwei is accepted, and the quoted max fee equals (does not strictly exceed)
the quoted priority fee. -/
theorem gas_equal_fees_cex :
    getGasOverrides ⟨some 32000000000, some 32000000000⟩ = .ok ⟨35200000000, 35200000000⟩
    ∧ ¬ ((35200000000 : Int) > 35200000000) := by
  decide

/-- C7 (amended): for every accepted snapshot the quoted max fee strictly
exceeds the quoted priority fee exactly when the snapshot's maxFeePerGas
strictly exceeds its maxPriorityFeePerGas (the implied base fee is positive);
when they are equal the two quoted values coincide. -/
theorem gas_maxfee_gt_tip_iff (a p : Int) (g : GasOverrides) (ha : a ≠ 0) (hp : p ≠ 0)
    (hg : getGasOverrides ⟨some a, some p⟩ = .ok g) :
    g.maxFeePerGas > g.maxPriorityFeePerGas ↔ p < a := by
  rw [getGasOverrides_ok_eq a p ha hp] at hg
  simp only [Except.ok.injEq] at hg
  subst hg
  show (a - p) + Int.tdiv ((if p < amoyMinPriorityFee then amoyMinPriorityFee else p) * 110) 100 >
      Int.tdiv ((if p < amoyMinPriorityFee then amoyMinPriorityFee else p) * 110) 100 ↔ p < a
  generalize Int.tdiv ((if p < amoyMinPriorityFee then amoyMinPriorityFee else p) * 110) 100 = b
  omega

theorem gas_maxfee_gt_tip_iff_witness :
    ((⟨104000000000, 44000000000⟩ : GasOverrides).maxFeePerGas >
        (⟨104000000000, 44000000000⟩ : GasOverrides).maxPriorityFeePerGas) ↔
      (40000000000 : Int) < 100000000000 :=
  gas_maxfee_gt_tip_iff 100000000000 40000000000 ⟨104000000000, 44000000000⟩
    (by decide) (by decide) (by decide)

/-- C1 counterexample: with a concrete sound recoverable-signature scheme and
a valid input triple, the claim issued by handleKyc.js (declared issuer the
hardcoded `CLAIM_ISSUER_ADDRESS`, signed with the admin key 1 whose address is
not that constant) fails the spec's local verification: recovery yields the
signer's address, not the declared issuer. -/
theorem issueKyc_roundtrip_fails_cex :
    toyE.Sound
    ∧ (generateClaimSignature toyKeccak toyE 1 5 7 42).map
        (fun c => verifyLocally toyKeccak toyE c 7) = .ok false :=
  ⟨toyE_sound, by decide⟩

/-- C1 (amended): for any sound recoverable-signature scheme, recovering from
the issued signature and the recomputed dataHash always yields the signing
wallet's address; hence the round trip `verifyLocally(issueClaim(...))` holds
unconditionally for handleKycV6's `generateClaimSignature` (whose declared
issuer is the wallet's own address), while for handleKyc.js's issuance
(declared issuer the hardcoded `CLAIM_ISSUER_ADDRESS`) it holds exactly when
the admin wallet's address equals that hardcoded constant. -/
theorem claim_roundtrip_amended (keccak : List Nat → Nat) (E : ECDSA)
    (adminKey userAddress identityAddress topic : Nat) (payload : List Nat)
    (hE : E.Sound) (hu : isAddress userAddress = true) (hi : isAddress identityAddress = true) :
    verifyLocally keccak E
        (generateClaimSignatureV6 keccak E adminKey identityAddress topic payload)
        identityAddress = true
    ∧ ∀ c, generateClaimSignature keccak E adminKey userAddress identityAddress topic = .ok c →
        (verifyLocally keccak E c identityAddress = true ↔
          E.addrOf adminKey = CLAIM_ISSUER_ADDRESS) := by
  constructor
  · simp only [verifyLocally, generateClaimSignatureV6, beq_iff_eq]
    exact hE adminKey _
  · intro c hc
    unfold generateClaimSignature issueKycClaimSignature at hc
    simp only [hu, hi, Bool.not_true, Bool.false_eq_true, if_false, Except.ok.injEq] at hc
    subst hc
    simp only [verifyLocally, beq_iff_eq]
    rw [hE]

theorem claim_roundtrip_amended_witness :
    verifyLocally toyKeccak toyE (generateClaimSignatureV6 toyKeccak toyE 1 5 42 kycBytes) 5 =
      true :=
  (claim_roundtrip_amended toyKeccak toyE 1 9 5 42 kycBytes toyE_sound (by decide) (by decide)).1

/-- C2: both issuance functions sign exactly the EIP-191 personal-message
transform of `dataHash`, where `dataHash` is keccak256 of the standard ABI
encoding of the ordered tuple (subjectIdentityAddress as address, topic as
uint256, payload as bytes); the spec-side digest definitions coincide with
what the code computes. -/
theorem issuance_signs_eip191_abi_hash (keccak : List Nat → Nat) (E : ECDSA)
    (adminKey userAddress identityAddress topic : Nat) (payload : List Nat)
    (hu : isAddress userAddress = true) (hi : isAddress identityAddress = true) :
    issueKycClaimSignature keccak E adminKey userAddress identityAddress payload topic =
      .ok ⟨E.sign adminKey (specPersonalDigest keccak identityAddress topic payload),
          CLAIM_ISSUER_ADDRESS, specDataHash keccak identityAddress topic payload, topic⟩
    ∧ (generateClaimSignatureV6 keccak E adminKey identityAddress topic payload).signature =
        E.sign adminKey (specPersonalDigest keccak identityAddress topic payload)
    ∧ specDataHash keccak identityAddress topic payload =
        keccak (abiEncode_addr_uint_bytes identityAddress topic payload) := by
  refine ⟨?_, rfl, rfl⟩
  unfold issueKycClaimSignature
  rw [hu, hi]
  rfl

set_option maxRecDepth 40000 in
theorem issuance_signs_eip191_abi_hash_witness :
    issueKycClaimSignature toyKeccak toyE 1 5 7 kycBytes 42 =
      .ok ⟨18446744073709551676, CLAIM_ISSUER_ADDRESS, 160, 42⟩ := by
  have h := (issuance_signs_eip191_abi_hash toyKeccak toyE 1 5 7 42 kycBytes
    (by decide) (by decide)).1
  exact h.trans (by decide)

set_option maxRecDepth 40000 in
/-- C3 (code bug): at the repository's own test input (the identity contract
of handleKycV6.js line 315, topic 42, payload "KYC"), the byte string whose
keccak256 the V6 `submitClaim` pre-flight recomputes (the 55-byte packed
encoding) differs from the byte string whose keccak256 the issuer hashed and
signed (the 160-byte standard ABI encoding), contradicting the code's own
comment that it recreates "the exact same hash that was signed". -/
theorem v6_preflight_hash_preimage_differs :
    packedEncode_addr_uint_bytes DE9_IDENTITY 42 kycBytes ≠
      abiEncode_addr_uint_bytes DE9_IDENTITY 42 kycBytes
    ∧ (packedEncode_addr_uint_bytes DE9_IDENTITY 42 kycBytes).length = 55
    ∧ (abiEncode_addr_uint_bytes DE9_IDENTITY 42 kycBytes).length = 160 := by
  decide

/-- C4 counterexample: a concrete claim whose signature does not recover to
its declared issuer (local verification returns false), yet handleKyc.js's
`submitClaim` — told `false` by the `checkIsClaimValid` view call, whose
result the code never inspects — still submits the `addClaim` transaction. -/
theorem submitClaim_sends_tx_despite_invalid_cex :
    (generateClaimSignature toyKeccak toyE 1 5 7 42).map
        (fun c => (verifyLocally toyKeccak toyE c 7,
          (submitClaim_kyc (.ok false) fdOk 7 c).actions)) =
      .ok (false,
        [Tx.addClaimTx 7 42 1 CLAIM_ISSUER_ADDRESS (2 ^ 64 + 60) kycBytes ""
          ⟨104000000000, 44000000000⟩ (some 500000)]) := by
  decide

/-- C4 (amended): handleKyc.js's `submitClaim` ignores the claim-validity
check and submits `addClaim` regardless of the view call's boolean (with the
fee quote and the elevated 500000 gas limit); only handleKycV6.js's
`submitClaim` aborts on a pre-flight recovered-address mismatch (computed over
the packed encoding), returning normally without submitting any transaction. -/
theorem submitClaim_preflight_amended (keccak : List Nat → Nat) (E : ECDSA) (fd : FeeData)
    (g : GasOverrides) (identityAddress : Nat) (cd : ClaimDetails) (viewOk : Bool)
    (hg : getGasOverrides fd = .ok g)
    (hne : E.recover cd.signature
        (keccak (packedEncode_addr_uint_bytes identityAddress cd.topic cd.data)) ≠ cd.issuer) :
    (submitClaim_kyc (.ok viewOk) fd identityAddress cd).actions =
        [Tx.addClaimTx identityAddress cd.topic cd.scheme cd.issuer cd.signature cd.data cd.uri g
          (some 500000)]
    ∧ submitClaimV6 keccak E fd identityAddress cd = ⟨[], .ok ()⟩ := by
  constructor
  · unfold submitClaim_kyc
    rw [hg]
  · have hb : (E.recover cd.signature
        (keccak (packedEncode_addr_uint_bytes identityAddress cd.topic cd.data)) != cd.issuer) =
          true := by
      simpa [bne_iff_ne] using hne
    unfold submitClaimV6
    rw [if_pos hb]

theorem submitClaim_preflight_amended_witness :
    (submitClaim_kyc (.ok false) fdOk 7 badClaim).actions =
        [Tx.addClaimTx 7 42 1 CLAIM_ISSUER_ADDRESS (2 ^ 64 + 60) kycBytes ""
          ⟨104000000000, 44000000000⟩ (some 500000)]
    ∧ submitClaimV6 toyKeccak toyE fdOk 7 badClaim = ⟨[], .ok ()⟩ :=
  submitClaim_preflight_amended toyKeccak toyE fdOk ⟨104000000000, 44000000000⟩ 7 badClaim false
    (by decide) (by decide)

theorem findWalletLinked_eq_none {logs : List (Option (String × Nat))}
    (h : ∀ l ∈ logs, isWalletLinked l = false) : findWalletLinked logs = none := by
  induction logs with
  | nil => rfl
  | cons l rest ih =>
    have hl := h l (List.mem_cons_self l rest)
    have hr : ∀ x ∈ rest, isWalletLinked x = false := fun x hx => h x (List.mem_cons_of_mem l hx)
    cases l with
    | none => simpa [findWalletLinked] using ih hr
    | some p =>
      obtain ⟨n, ident⟩ := p
      have hb : (n == "WalletLinked") = false := by simpa [isWalletLinked] using hl
      simpa [findWalletLinked, hb] using ih hr

theorem findWalletLinked_first {pre : List (Option (String × Nat))} (a : Nat)
    (post : List (Option (String × Nat)))
    (h : ∀ l ∈ pre, isWalletLinked l = false) :
    findWalletLinked (pre ++ some ("WalletLinked", a) :: post) = some a := by
  induction pre with
  | nil => simp [findWalletLinked]
  | cons l rest ih =>
    have hl := h l (List.mem_cons_self l rest)
    have hr : ∀ x ∈ rest, isWalletLinked x = false := fun x hx => h x (List.mem_cons_of_mem l hx)
    cases l with
    | none => simpa [findWalletLinked] using ih hr
    | some p =>
      obtain ⟨n, ident⟩ := p
      have hb : (n == "WalletLinked") = false := by simpa [isWalletLinked] using hl
      simpa [findWalletLinked, hb] using ih hr

/-- C8: when no receipt log entry decodes to a `WalletLinked` event,
`createIdentity` fails with the event-not-found error and submits no
key-configuration (`addKey`) transaction; non-matching entries are skipped
(the scan returns the first matching entry's identity argument regardless of
any skipped entries before it), and when a match exists, its identity argument
is the address the operation configures and returns. -/
theorem createIdentity_event_scan (keccak : List Nat → Nat) (fdCreate fd1 fd2 : FeeData)
    (userAddress a : Nat) (salt : String)
    (logs pre post : List (Option (String × Nat))) (gC g1 g2 : GasOverrides)
    (hC : getGasOverrides fdCreate = .ok gC)
    (h1 : getGasOverrides fd1 = .ok g1)
    (h2 : getGasOverrides fd2 = .ok g2)
    (hnone : ∀ l ∈ logs, isWalletLinked l = false)
    (hpre : ∀ l ∈ pre, isWalletLinked l = false) :
    ((createIdentity keccak fdCreate fd1 fd2 logs userAddress salt).result =
        .error eventNotFoundMsg
      ∧ (createIdentity keccak fdCreate fd1 fd2 logs userAddress salt).actions.filter
          Tx.isAddKey = [])
    ∧ findWalletLinked (pre ++ some ("WalletLinked", a) :: post) = some a
    ∧ (createIdentity keccak fdCreate fd1 fd2 (pre ++ some ("WalletLinked", a) :: post)
        userAddress salt).result = .ok a := by
  have hfirst := findWalletLinked_first a post hpre
  have hnonef := findWalletLinked_eq_none hnone
  refine ⟨⟨?_, ?_⟩, hfirst, ?_⟩
  · unfold createIdentity
    rw [hC, hnonef]
  · unfold createIdentity
    rw [hC, hnonef]
    rfl
  · unfold createIdentity configureAndTransferIdentity
    rw [hC, hfirst, h1, h2]

theorem createIdentity_event_scan_witness :
    ((createIdentity toyKeccak fdOk fdOk fdOk [none, some ("OtherEvent", 3)] 9 "s1").result =
        .error eventNotFoundMsg
      ∧ (createIdentity toyKeccak fdOk fdOk fdOk [none, some ("OtherEvent", 3)] 9 "s1").actions.filter
          Tx.isAddKey = [])
    ∧ findWalletLinked ([none] ++ some ("WalletLinked", 11) :: []) = some 11
    ∧ (createIdentity toyKeccak fdOk fdOk fdOk ([none] ++ some ("WalletLinked", 11) :: [])
        9 "s1").result = .ok 11 :=
  createIdentity_event_scan toyKeccak fdOk fdOk fdOk 9 11 "s1"
    [none, some ("OtherEvent", 3)] [none] []
    ⟨104000000000, 44000000000⟩ ⟨104000000000, 44000000000⟩ ⟨104000000000, 44000000000⟩
    (by decide) (by decide) (by decide) (by decide) (by decide)

/-- C9 counterexample: on a concrete successful run whose confirmed
registration transaction has hash "0xabc123", the `/register` endpoint
responds 200 with `transactionHash` equal to the JS boolean `true` — not the
transaction's identifying hash — because `addToIdentityRegistry` returns
`true` rather than `tx.hash`. -/
theorem register_reports_bool_cex :
    (registerEndpointHandler fdOk "0xabc123" 5 7 91).1.transactionHash =
      some (JsVal.jsBool true)
    ∧ JsVal.jsBool true ≠ JsVal.jsStr "0xabc123"
    ∧ (registerEndpointHandler fdOk "0xabc123" 5 7 91).2 =
        [Tx.registerIdentityTx 5 7 91 ⟨104000000000, 44000000000⟩ "0xabc123"] := by
  decide

/-- C9 (amended): every successful `addToIdentityRegistry` run submits exactly
one registration transaction carrying a fresh fee quote, waits for its
confirmation, and returns the JS boolean `true`, which is the value the
`POST /register` endpoint then reports as `transactionHash` (the transaction's
actual hash is never returned). -/
theorem register_amended (fd : FeeData) (g : GasOverrides) (txHash : String)
    (userAddress identityAddress countryCode : Nat)
    (hg : getGasOverrides fd = .ok g) :
    addToIdentityRegistry fd txHash userAddress identityAddress countryCode =
      ⟨[Tx.registerIdentityTx userAddress identityAddress countryCode g txHash],
        .ok (JsVal.jsBool true)⟩
    ∧ (registerEndpointHandler fd txHash userAddress identityAddress countryCode).1 =
        ⟨200, some (JsVal.jsBool true), none⟩ := by
  have h : addToIdentityRegistry fd txHash userAddress identityAddress countryCode =
      ⟨[Tx.registerIdentityTx userAddress identityAddress countryCode g txHash],
        .ok (JsVal.jsBool true)⟩ := by
    unfold addToIdentityRegistry
    rw [hg]
  refine ⟨h, ?_⟩
  unfold registerEndpointHandler
  rw [h]

theorem register_amended_witness :
    addToIdentityRegistry fdOk "0xabc123" 5 7 91 =
      ⟨[Tx.registerIdentityTx 5 7 91 ⟨104000000000, 44000000000⟩ "0xabc123"],
        .ok (JsVal.jsBool true)⟩
    ∧ (registerEndpointHandler fdOk "0xabc123" 5 7 91).1 =
        ⟨200, some (JsVal.jsBool true), none⟩ :=
  register_amended fdOk ⟨104000000000, 44000000000⟩ "0xabc123" 5 7 91 (by decide)

/-- C10: `mintTokens` always sends the mint transaction to the hardcoded token
contract 0x3eaC25f463ed170fC79EfD629A0BD93f9336A016 — the caller-supplied
`tokenAddress` is overwritten before use and never influences which contract
is called — and on success it returns the submitted transaction's hash. -/
theorem mintTokens_hardcoded_token (txHash : String)
    (toAddr amount tokenAddress tokenAddress2 : Nat) :
    mintTokens txHash toAddr amount tokenAddress =
      ⟨[Tx.mintTx HARDCODED_TOKEN_ADDRESS toAddr amount], .ok txHash⟩
    ∧ mintTokens txHash toAddr amount tokenAddress =
        mintTokens txHash toAddr amount tokenAddress2 :=
  ⟨rfl, rfl⟩
